import Mathlib

/-!
Verification of the ibmcloud Packer builder (`builder/ibmcloud/builder.go`,
concatenated into `src/main.go` after the plugin entry point).

The development shallowly embeds:
  * the `Config` structure and the validation/defaulting logic of
    `Builder.Prepare` (source lines 91-210),
  * Go's `time.ParseDuration` (from the Go standard library `time/format.go`,
    called at source line 196),
  * the step-sequence selection and result extraction of `Builder.Run`
    (source lines 215-284).

The multistep runner and the concrete steps live in other files of the
repository / the packer SDK; `Run` is therefore modelled as a function of the
post-runner shared state (an arbitrary `RunState`), which is exactly the part
of `Run` present in the source.
-/

namespace IbmCloud

/-! ## Go `time.ParseDuration` (Go stdlib `time/format.go`) -/

/-- Hex digit from Go's `lowerhex = "0123456789abcdef"`. -/
def lowerHexDigit (n : Nat) : Char :=
  if n < 10 then Char.ofNat ('0'.toNat + n) else Char.ofNat ('a'.toNat + (n - 10))

/-- UTF-8 byte sequence of a character (Go strings are UTF-8; `quote` escapes
the individual bytes of a non-ASCII rune). -/
def utf8Bytes (c : Char) : List Nat :=
  let n := c.toNat
  if n < 0x80 then [n]
  else if n < 0x800 then [0xC0 + n / 64, 0x80 + n % 64]
  else if n < 0x10000 then [0xE0 + n / 4096, 0x80 + (n / 64) % 64, 0x80 + n % 64]
  else [0xF0 + n / 262144, 0x80 + (n / 4096) % 64, 0x80 + (n / 64) % 64, 0x80 + n % 64]

/-- One character of Go `time.quote`: printable ASCII is kept (with `"` and
backslash escaped), anything below `' '` or at/above `runeSelf` (0x80) is
rendered byte-wise as backslash-x escapes. -/
def goQuoteChar (c : Char) : String :=
  if c.toNat ≥ 0x80 ∨ c.toNat < 0x20 then
    String.join ((utf8Bytes c).map fun b =>
      String.mk ['\\', 'x', lowerHexDigit (b / 16), lowerHexDigit (b % 16)])
  else if c = '"' ∨ c = '\\' then String.mk ['\\', c]
  else String.mk [c]

/-- Go `time.quote`: wrap in double quotes, escaping as above. -/
def goQuote (s : String) : String :=
  "\"" ++ String.join (s.toList.map goQuoteChar) ++ "\""

/-- Go `time.leadingInt`: consume leading decimal digits into `x`; `none` on
int64 overflow (`x > 1<<63/10` before the multiply, or the result exceeding
`1<<63`). -/
def leadingInt : List Char → Nat → Option (Nat × List Char)
  | [], x => some (x, [])
  | c :: rest, x =>
    if '0' ≤ c ∧ c ≤ '9' then
      if x > 2 ^ 63 / 10 then none
      else
        let y := x * 10 + (c.toNat - '0'.toNat)
        if y > 2 ^ 63 then none
        else leadingInt rest y
    else some (x, c :: rest)

/-- Go `time.leadingFraction`: consume digits after the decimal point,
accumulating `x` and the power-of-ten `scale`; once the accumulator would
overflow, further digits are skipped (Go keeps `scale` as a float64, which is
exact for every power of ten reachable here). -/
def leadingFraction : List Char → Nat → Nat → Bool → Nat × Nat × List Char
  | [], x, scale, _ => (x, scale, [])
  | c :: rest, x, scale, overflow =>
    if '0' ≤ c ∧ c ≤ '9' then
      if overflow then leadingFraction rest x scale true
      else if x > (2 ^ 63 - 1) / 10 then leadingFraction rest x scale true
      else
        let y := x * 10 + (c.toNat - '0'.toNat)
        if y > 2 ^ 63 then leadingFraction rest x scale true
        else leadingFraction rest y (scale * 10) false
    else (x, scale, c :: rest)

/-- Go `time.unitMap`: nanoseconds per unit name. -/
def unitMap : String → Option Nat
  | "ns" => some 1
  | "us" => some 1000
  | "µs" => some 1000
  | "μs" => some 1000
  | "ms" => some 1000000
  | "s" => some 1000000000
  | "m" => some 60000000000
  | "h" => some 3600000000000
  | _ => none

/-- Length of the unit name at the head of `s` (Go scans until a digit or a
decimal point). -/
def unitLen : List Char → Nat
  | [] => 0
  | c :: rest => if c = '.' ∨ ('0' ≤ c ∧ c ≤ '9') then 0 else 1 + unitLen rest

/-- The `for s != ""` loop body of Go `time.ParseDuration`, accumulating the
total `d` in nanoseconds.  `fuel` bounds the recursion: every successful
iteration consumes at least one character, so `fuel = length + 1` never runs
out (the fuel-exhaustion branch is unreachable).  The fractional contribution
`uint64(float64(f) * (float64(unit) / scale))` is modelled as the exact floor
division `f * unit / scale` (the float64 computation is exact on the values
the bounds checks admit); `d += v` is a wrapping uint64 addition. -/
def parseDurationLoop (orig : String) : Nat → List Char → Nat → Except String Nat
  | 0, _, _ => .error ("time: invalid duration " ++ goQuote orig)
  | _, [], d => .ok d
  | fuel + 1, s@(c0 :: _), d =>
    if ¬(c0 = '.' ∨ ('0' ≤ c0 ∧ c0 ≤ '9')) then
      .error ("time: invalid duration " ++ goQuote orig)
    else
      match leadingInt s 0 with
      | none => .error ("time: invalid duration " ++ goQuote orig)
      | some (v, s1) =>
        let pre : Bool := s1.length != s.length
        let frac : Nat × Nat × List Char × Bool :=
          match s1 with
          | '.' :: s1' =>
            let (f, scale, s2) := leadingFraction s1' 0 1 false
            (f, scale, s2, s2.length != s1'.length)
          | _ => (0, 1, s1, false)
        let (f, scale, s2, post) := frac
        if ¬pre ∧ ¬post then .error ("time: invalid duration " ++ goQuote orig)
        else
          let i := unitLen s2
          if i = 0 then .error ("time: missing unit in duration " ++ goQuote orig)
          else
            let u := String.mk (s2.take i)
            let s3 := s2.drop i
            match unitMap u with
            | none =>
              .error ("time: unknown unit " ++ goQuote u ++ " in duration " ++ goQuote orig)
            | some unit =>
              if v > 2 ^ 63 / unit then .error ("time: invalid duration " ++ goQuote orig)
              else
                let v := v * unit
                let v := if f > 0 then v + f * unit / scale else v
                if f > 0 ∧ v > 2 ^ 63 then .error ("time: invalid duration " ++ goQuote orig)
                else
                  let d := (d + v) % 2 ^ 64
                  if d > 2 ^ 63 then .error ("time: invalid duration " ++ goQuote orig)
                  else parseDurationLoop orig fuel s3 d

/-- Go `time.ParseDuration`: the result is a `Duration` (int64 count of
nanoseconds), or an error message.  Mirrors the sign handling, the special
case `"0"`, and the final negation / overflow checks (`-Duration(d)` agrees
with `-(d : Int)` for every `d ≤ 2^63` the loop can produce). -/
def parseDuration (s : String) : Except String Int :=
  let orig := s
  let cs := s.toList
  let signed : Bool × List Char :=
    match cs with
    | c :: rest => if c = '-' then (true, rest) else if c = '+' then (false, rest) else (false, cs)
    | [] => (false, [])
  let neg := signed.1
  let cs := signed.2
  if cs = ['0'] then .ok 0
  else if cs = [] then .error ("time: invalid duration " ++ goQuote orig)
  else
    match parseDurationLoop orig (cs.length + 1) cs 0 with
    | .error e => .error e
    | .ok d =>
      if neg then .ok (-(d : Int))
      else if d > 2 ^ 63 - 1 then .error ("time: invalid duration " ++ goQuote orig)
      else .ok (d : Int)

example : parseDuration "10m" = .ok 600000000000 := by rfl
example : parseDuration "0s" = .ok 0 := by rfl
example : parseDuration "-1s" = .ok (-1000000000) := by rfl
example : parseDuration "0" = .ok 0 := by rfl
example : parseDuration "1h30m" = .ok 5400000000000 := by rfl
example : parseDuration "1.5s" = .ok 1500000000 := by rfl
example : (parseDuration "banana").isOk = false := by decide
example : parseDuration "10" = .error "time: missing unit in duration \"10\"" := by rfl
example : parseDuration "3x" = .error "time: unknown unit \"x\" in duration \"3x\"" := by rfl

/-! ## The builder configuration (source lines 43-74) -/

/-- The communicator sub-configuration (`communicator.Config`, squashed into
`Config`).  Only the fields the builder itself reads are modelled: `Type`,
`WinRMUser`, `SSHUsername`, `SSHPrivateKey` (source lines 131-139, 229, 243,
246). -/
structure CommConfig where
  type : String
  winRMUser : String
  sshUsername : String
  sshPrivateKey : String
deriving Repr, DecidableEq

/-- The builder `Config` (source lines 43-74).  Go `int`/`int64` fields are
modelled as `Int`; `StateTimeout` is the `time.Duration` (int64 nanosecond
count) set by `Prepare`. -/
structure Config where
  comm : CommConfig
  username : String
  apiKey : String
  imageName : String
  imageDescription : String
  imageType : String
  baseImageId : String
  baseOsCode : String
  uploadToDatacenters : List String
  instanceName : String
  instanceDomain : String
  instanceFlavor : String
  instanceLocalDiskFlag : Bool
  instanceCpu : Int
  instanceMemory : Int
  instanceDiskCapacity : Int
  datacenterName : String
  publicVlanId : Int
  instanceNetworkSpeed : Int
  provisioningSshKeyId : Int
  instancePublicSecurityGroupIds : List Int
  rawStateTimeout : String
  stateTimeout : Int
deriving Repr, DecidableEq

/-- Source line 78: `IMAGE_TYPE_STANDARD = "standard"`. -/
def IMAGE_TYPE_STANDARD : String := "standard"

/-! ## `Builder.Prepare` (source lines 91-210) -/

/-- Go's `if x == "" { x = d }` defaulting idiom. -/
def defaultString (v d : String) : String := if v == "" then d else v

/-- Communicator-credential defaulting, source lines 131-139. -/
def commDefaults (comm : CommConfig) : CommConfig :=
  if comm.type == "winrm" then
    { comm with winRMUser := defaultString comm.winRMUser "Administrator" }
  else if comm.type == "ssh" then
    { comm with sshUsername := defaultString comm.sshUsername "root" }
  else comm

/-- The default-assignment block of `Prepare`, source lines 102-139.  Each
`if` tests and sets a distinct field, so the sequential block is a single
simultaneous update.  `nowUnix` stands for `time.Now().Unix()`; the source
renders it with the `%s` verb (yielding a Go formatting artefact around the
number), modelled as the plain decimal rendering since nothing reads the
instance name back. -/
def applyDefaults (nowUnix : Int) (c : Config) : Config :=
  { c with
    datacenterName := defaultString c.datacenterName "ams01",
    instanceName := defaultString c.instanceName ("packer-ibmcloud-" ++ toString nowUnix),
    instanceDomain := defaultString c.instanceDomain "defaultdomain.com",
    imageDescription := defaultString c.imageDescription "Instance snapshot. Generated by packer.io",
    imageType := defaultString c.imageType IMAGE_TYPE_STANDARD,
    instanceNetworkSpeed := if c.instanceNetworkSpeed == 0 then 10 else c.instanceNetworkSpeed,
    rawStateTimeout := defaultString c.rawStateTimeout "10m",
    comm := commDefaults c.comm }

/-- Source lines 142-156: `byFlavor` starts `true` and every strictly positive
explicit sizing field (`instance_cpu`, `instance_memory`,
`instance_disk_capacity`) resets it to `false`. -/
def byFlavor (c : Config) : Bool :=
  let b := true
  let b := if c.instanceCpu > 0 then false else b
  let b := if c.instanceMemory > 0 then false else b
  let b := if c.instanceDiskCapacity > 0 then false else b
  b

def sizingBothMsg : String :=
  "instance_flavor must be specified without instance_cpu, instance_memory, and instance_disk_capacity"

def sizingNeitherMsg : String := "instance_flavor must be specified"

/-- The sizing mutual-exclusivity check, source lines 158-164. -/
def sizingErrs (c : Config) : List String :=
  if ¬byFlavor c ∧ c.instanceFlavor != "" then [sizingBothMsg]
  else if byFlavor c ∧ c.instanceFlavor == "" then [sizingNeitherMsg]
  else []

def apiKeyMsg : String :=
  "api_key or the SOFTLAYER_API_KEY environment variable must be specified"

/-- Source lines 166-169. -/
def apiKeyErrs (c : Config) : List String :=
  if c.apiKey == "" then [apiKeyMsg] else []

def usernameMsg : String :=
  "username or the SOFTLAYER_USER_NAME environment variable must be specified"

/-- Source lines 171-174. -/
def usernameErrs (c : Config) : List String :=
  if c.username == "" then [usernameMsg] else []

def imageNameMsg : String := "image_name must be specified"

/-- Source lines 176-179. -/
def imageNameErrs (c : Config) : List String :=
  if c.imageName == "" then [imageNameMsg] else []

def imageTypeMsg (t : String) : String :=
  "Unknown image_type '" ++ t ++ "'. Must be 'standard'."

/-- Source lines 181-184. -/
def imageTypeErrs (c : Config) : List String :=
  if c.imageType != IMAGE_TYPE_STANDARD then [imageTypeMsg c.imageType] else []

def baseNeitherMsg : String := "please specify base_image_id or base_os_code"

def baseBothMsg : String := "please specify only one of base_image_id or base_os_code"

/-- The base-image selector checks, source lines 186-194 (two independent
`if`s, so both messages can be emitted at once only if a string were
simultaneously empty and non-empty - i.e. never). -/
def baseImageErrs (c : Config) : List String :=
  (if c.baseImageId == "" ∧ c.baseOsCode == "" then [baseNeitherMsg] else []) ++
  (if c.baseImageId != "" ∧ c.baseOsCode != "" then [baseBothMsg] else [])

/-- Source lines 196-201: parse the raw timeout; on failure append an error
and fall back to the zero `time.Duration` that `ParseDuration` returned.  The
first component is the value assigned to `StateTimeout`, the second the
appended error messages. -/
def timeoutResult (raw : String) : Int × List String :=
  match parseDuration raw with
  | .ok d => (d, [])
  | .error e => (0, ["Failed parsing state_timeout: " ++ e])

/-- All messages appended by the validation block of `Prepare` (source lines
146-201), in source order. -/
def validationErrs (c : Config) : List String :=
  sizingErrs c ++ apiKeyErrs c ++ usernameErrs c ++ imageNameErrs c ++
    imageTypeErrs c ++ baseImageErrs c ++ (timeoutResult c.rawStateTimeout).2

/-- Outcome of `Prepare`: the mutated config, the accumulated
`packer.MultiError` messages, and the returned error.
`errors.New(errs.Error())` at source line 206 aggregates every accumulated
message into the single returned error; it is modelled as carrying the list of
messages. -/
structure PrepareResult where
  config : Config
  errs : List String
  retErr : Option (List String)
deriving Repr, DecidableEq

/-- `Builder.Prepare`, source lines 91-210, after `config.Decode` succeeded
(decoding itself belongs to the packer SDK).  `commErrs` stands for the
errors contributed by the external `self.config.Comm.Prepare` call at source
line 144, which are appended first; `nowUnix` stands for `time.Now().Unix()`.
The error is non-nil exactly when the `MultiError` holds at least one
message (source lines 205-207). -/
def prepare (commErrs : List String) (nowUnix : Int) (c0 : Config) : PrepareResult :=
  let c1 := applyDefaults nowUnix c0
  let errs := commErrs ++ validationErrs c1
  let c2 := { c1 with stateTimeout := (timeoutResult c1.rawStateTimeout).1 }
  { config := c2, errs := errs,
    retErr := if errs.length > 0 then some errs else none }

/-! ## `Builder.Run` (source lines 215-284) -/

/-- Modelled from the spec: the Provider Client (`SoftlayerClient{}.New`,
defined in `client.go`, which is not under src/) "wraps provider API calls"
and its "credentials are immutable after construction"; it is modelled as the
record of the credentials `Run` passes to it at source line 218. -/
structure SoftlayerClient where
  username : String
  apiKey : String
deriving Repr, DecidableEq

/-- Which communicator wiring a `communicator.StepConnect` value carries:
`winRMCommHost`/`winRMConfig` (source lines 234-238) or
`sshCommHost`/`sshConfig` (source lines 251-255). -/
inductive ConnKind where
  | winrm
  | ssh
deriving Repr, DecidableEq

/-- The step values `Run` places in its sequence (source lines 230-258),
keeping the per-step configuration captured at construction time:
`stepCreateSshKey` holds `PrivateKeyFile` (line 246) and `StepConnect` its
communicator wiring. -/
inductive Step where
  | stepCreateSshKey (privateKeyFile : String)
  | stepCreateInstance
  | stepWaitforInstance
  | stepGrabPublicIP
  | stepConnect (kind : ConnKind)
  | stepProvision
  | stepCaptureImage
deriving Repr, DecidableEq

/-- The step-sequence selection of `Run`, source lines 228-259: `steps` starts
empty, is replaced wholesale for `"winrm"`, else for `"ssh"`, and stays empty
for every other communicator type. -/
def buildSteps (c : Config) : List Step :=
  if c.comm.type == "winrm" then
    [.stepCreateInstance, .stepWaitforInstance, .stepGrabPublicIP,
     .stepConnect .winrm, .stepWaitforInstance, .stepProvision, .stepCaptureImage]
  else if c.comm.type == "ssh" then
    [.stepCreateSshKey c.comm.sshPrivateKey, .stepCreateInstance, .stepWaitforInstance,
     .stepGrabPublicIP, .stepConnect .ssh, .stepProvision, .stepCaptureImage]
  else []

/-- The two shared-state keys `Run` inspects after the runner returns
(source lines 266-278): the presence/value of `"error"` and of `"image_id"`.
The runner and the steps are outside this file's source, so `Run` is analysed
for an arbitrary post-runner state. -/
structure RunState where
  error : Option String
  imageId : Option String
deriving Repr, DecidableEq

/-- The artifact built at source lines 276-281. -/
structure Artifact where
  imageName : String
  imageId : String
  datacenterName : String
  client : SoftlayerClient
deriving Repr, DecidableEq

/-- Everything observable about one `Run` call: the returned
`(packer.Artifact, error)` pair, the `log.Println` output, whether
`self.runner.Run` was invoked, and with which steps. -/
structure RunResult where
  artifact : Option Artifact
  error : Option String
  logged : List String
  runnerStarted : Bool
  steps : List Step
deriving Repr, DecidableEq

/-- `Builder.Run`, source lines 215-284, as a function of the prepared config
and of the shared state the (external) runner leaves behind.  The runner is
started unconditionally at source line 263, whatever `steps` holds.  With an
`"error"` key present, Run returns `(nil, err)` (lines 266-268); with no
`"error"` and no `"image_id"`, it logs `"Failed to find image_id in state.
Bug?"` and returns `(nil, nil)` (lines 270-273); otherwise it returns the
artifact and a nil error (lines 275-283). -/
def run (c : Config) (st : RunState) : RunResult :=
  let client : SoftlayerClient := { username := c.username, apiKey := c.apiKey }
  let steps := buildSteps c
  match st.error with
  | some e =>
    { artifact := none, error := some e, logged := [],
      runnerStarted := true, steps := steps }
  | none =>
    match st.imageId with
    | none =>
      { artifact := none, error := none,
        logged := ["Failed to find image_id in state. Bug?"],
        runnerStarted := true, steps := steps }
    | some iid =>
      { artifact := some { imageName := c.imageName, imageId := iid,
                           datacenterName := c.datacenterName, client := client },
        error := none, logged := [],
        runnerStarted := true, steps := steps }

/-! ## Concrete data for witnesses and counterexamples -/

/-- A configuration that passes every check of `Prepare`: credentials, image
name and exactly one of each mutually-exclusive pair set, everything else left
to the defaults. -/
def cfgBase : Config :=
  { comm := { type := "ssh", winRMUser := "", sshUsername := "", sshPrivateKey := "" },
    username := "sluser", apiKey := "slkey", imageName := "packer-image",
    imageDescription := "", imageType := "", baseImageId := "1234567", baseOsCode := "",
    uploadToDatacenters := [], instanceName := "", instanceDomain := "",
    instanceFlavor := "B1_1X2X25", instanceLocalDiskFlag := false,
    instanceCpu := 0, instanceMemory := 0, instanceDiskCapacity := 0,
    datacenterName := "", publicVlanId := 0, instanceNetworkSpeed := 0,
    provisioningSshKeyId := 0, instancePublicSecurityGroupIds := [],
    rawStateTimeout := "", stateTimeout := 0 }

def cfgSsh : Config :=
  { cfgBase with comm := { type := "ssh", winRMUser := "", sshUsername := "", sshPrivateKey := "PEMKEY" } }

def cfgWinrm : Config :=
  { cfgBase with comm := { type := "winrm", winRMUser := "", sshUsername := "", sshPrivateKey := "" } }

def cfgDocker : Config :=
  { cfgBase with comm := { type := "docker", winRMUser := "", sshUsername := "", sshPrivateKey := "" } }

/-- Post-runner state with neither an `error` nor an `image_id` key. -/
def stEmpty : RunState := { error := none, imageId := none }

/-- Post-runner state with an `error` key. -/
def stErr : RunState := { error := some "instance creation failed", imageId := none }

/-- Post-runner state of a successful build. -/
def stOk : RunState := { error := none, imageId := some "4815162342" }

example : (prepare [] 0 cfgBase).retErr = none := by decide

def cfgSizingBoth : Config := { cfgBase with instanceCpu := 2 }

def cfgSizingNeither : Config := { cfgBase with instanceFlavor := "" }

def cfgSizingExplicit : Config :=
  { cfgBase with
    instanceFlavor := ""
    instanceCpu := 1
    instanceMemory := 2048
    instanceDiskCapacity := 25 }

def cfgNegSizing : Config :=
  { cfgBase with instanceCpu := -3, instanceMemory := -1024, instanceDiskCapacity := -25 }

def cfgBaseImageBoth : Config := { cfgBase with baseOsCode := "UBUNTU_LATEST" }

def cfgBaseImageNeither : Config := { cfgBase with baseImageId := "" }

def cfgZeroTimeout : Config := { cfgBase with rawStateTimeout := "0s" }

def cfgNegTimeout : Config := { cfgBase with rawStateTimeout := "-5m" }

def cfgBadTimeout : Config := { cfgBase with rawStateTimeout := "bogus" }

def cfgMultiViolation : Config :=
  { cfgBase with apiKey := "", username := "", imageName := "", instanceFlavor := "" }

/-! ## Helper lemmas -/

theorem byFlavor_true_iff (c : Config) :
    byFlavor c = true ↔
      c.instanceCpu ≤ 0 ∧ c.instanceMemory ≤ 0 ∧ c.instanceDiskCapacity ≤ 0 := by
  simp only [byFlavor]
  split_ifs <;> simp <;> omega

theorem byFlavor_false_iff (c : Config) :
    byFlavor c = false ↔
      0 < c.instanceCpu ∨ 0 < c.instanceMemory ∨ 0 < c.instanceDiskCapacity := by
  rw [← Bool.not_eq_true, byFlavor_true_iff]
  omega

theorem sizingErrs_applyDefaults (n : Int) (c : Config) :
    sizingErrs (applyDefaults n c) = sizingErrs c := rfl

theorem validation_mem_prepare_errs (commErrs : List String) (now : Int) (c : Config)
    (m : String) (h : m ∈ validationErrs (applyDefaults now c)) :
    m ∈ (prepare commErrs now c).errs := by
  simp only [prepare, List.mem_append]
  exact Or.inr h

theorem prepare_retErr_of_mem (commErrs : List String) (now : Int) (c : Config)
    (m : String) (h : m ∈ (prepare commErrs now c).errs) :
    (prepare commErrs now c).retErr = some ((prepare commErrs now c).errs) := by
  have hlen : 0 < (commErrs ++ validationErrs (applyDefaults now c)).length :=
    List.length_pos.mpr (List.ne_nil_of_mem h)
  simp only [prepare, if_pos hlen]

/-- The validation blocks of `prepare`, unfolded; every block except the
image-type and timeout checks reads only fields `applyDefaults` leaves
untouched. -/
theorem prepare_errs_def (commErrs : List String) (now : Int) (c : Config) :
    (prepare commErrs now c).errs =
      commErrs ++ (sizingErrs c ++ apiKeyErrs c ++ usernameErrs c ++ imageNameErrs c ++
        imageTypeErrs (applyDefaults now c) ++ baseImageErrs c ++
        (timeoutResult (applyDefaults now c).rawStateTimeout).2) := rfl

theorem prepare_stateTimeout_def (commErrs : List String) (now : Int) (c : Config) :
    (prepare commErrs now c).config.stateTimeout =
      (timeoutResult (applyDefaults now c).rawStateTimeout).1 := rfl

/-! ## The claims -/

/-- C1: `Run` selects the step sequence solely from the communicator type:
for `ssh` the sequence is stepCreateSshKey, stepCreateInstance,
stepWaitforInstance, stepGrabPublicIP, StepConnect, StepProvision,
stepCaptureImage; for `winrm` it is stepCreateInstance, stepWaitforInstance,
stepGrabPublicIP, StepConnect, stepWaitforInstance, StepProvision,
stepCaptureImage, the wait step appearing exactly twice, once before and once
after the connect step. -/
theorem C1_run_step_sequences (c : Config) :
    (c.comm.type = "ssh" →
      buildSteps c =
        [.stepCreateSshKey c.comm.sshPrivateKey, .stepCreateInstance, .stepWaitforInstance,
         .stepGrabPublicIP, .stepConnect .ssh, .stepProvision, .stepCaptureImage]) ∧
    (c.comm.type = "winrm" →
      buildSteps c =
        [.stepCreateInstance, .stepWaitforInstance, .stepGrabPublicIP,
         .stepConnect .winrm, .stepWaitforInstance, .stepProvision, .stepCaptureImage] ∧
      (buildSteps c).count .stepWaitforInstance = 2 ∧
      ((buildSteps c).take 3).count .stepWaitforInstance = 1 ∧
      ((buildSteps c).drop 4).count .stepWaitforInstance = 1) := by
  constructor
  · intro h
    simp [buildSteps, h]
  · intro h
    simp [buildSteps, h, List.count_cons]

/-- Witness for C1 at concrete ssh and winrm configurations. -/
theorem C1_run_step_sequences_witness :
    (buildSteps cfgSsh =
      [.stepCreateSshKey "PEMKEY", .stepCreateInstance, .stepWaitforInstance,
       .stepGrabPublicIP, .stepConnect .ssh, .stepProvision, .stepCaptureImage]) ∧
    (buildSteps cfgWinrm =
      [.stepCreateInstance, .stepWaitforInstance, .stepGrabPublicIP,
       .stepConnect .winrm, .stepWaitforInstance, .stepProvision, .stepCaptureImage] ∧
     (buildSteps cfgWinrm).count .stepWaitforInstance = 2 ∧
     ((buildSteps cfgWinrm).take 3).count .stepWaitforInstance = 1 ∧
     ((buildSteps cfgWinrm).drop 4).count .stepWaitforInstance = 1) :=
  ⟨(C1_run_step_sequences cfgSsh).1 rfl, (C1_run_step_sequences cfgWinrm).2 rfl⟩

/-- C2 counterexample: at a concrete run finishing with neither an `error`
nor an `image_id` key, `Run` returns a nil artifact together with a nil
error — the anomaly is only written to the log, so it is not surfaced to the
caller as a fatal/defensive failure, contradicting the claim's "surfaced
loudly to the caller ... not a normal silent outcome". -/
theorem C2_counterexample :
    stEmpty.error = none ∧ stEmpty.imageId = none ∧
    (run cfgBase stEmpty).artifact = none ∧
    (run cfgBase stEmpty).error = none ∧
    (run cfgBase stEmpty).logged = ["Failed to find image_id in state. Bug?"] := by
  decide

/-- C2 (amended): for every run that finishes with neither an `error` key nor
an `image_id` key, `Run` logs "Failed to find image_id in state. Bug?" and
returns a nil artifact together with a nil error: the anomaly is reported in
the log only, not surfaced to the caller. -/
theorem C2_amended_silent_log (c : Config) (st : RunState)
    (he : st.error = none) (hi : st.imageId = none) :
    (run c st).artifact = none ∧ (run c st).error = none ∧
    (run c st).logged = ["Failed to find image_id in state. Bug?"] := by
  simp [run, he, hi]

/-- Witness for the amended C2. -/
theorem C2_amended_silent_log_witness :
    stEmpty.error = none ∧ stEmpty.imageId = none ∧
    ((run cfgSsh stEmpty).artifact = none ∧ (run cfgSsh stEmpty).error = none ∧
     (run cfgSsh stEmpty).logged = ["Failed to find image_id in state. Bug?"]) :=
  ⟨rfl, rfl, C2_amended_silent_log cfgSsh stEmpty rfl rfl⟩

/-- C4 counterexample: with communicator type `"docker"` (neither `ssh` nor
`winrm`) and an otherwise fully valid configuration, `Prepare` returns no
error at all, and `Run` still starts the Runner — with an empty step
sequence — and finishes with nil artifact and nil error, contradicting "the
build fails with a configuration error before the step Runner starts; the
Runner is never started with such a config". -/
theorem C4_counterexample :
    cfgDocker.comm.type ≠ "ssh" ∧ cfgDocker.comm.type ≠ "winrm" ∧
    (prepare [] 0 cfgDocker).retErr = none ∧
    (run (prepare [] 0 cfgDocker).config stEmpty).runnerStarted = true ∧
    (run (prepare [] 0 cfgDocker).config stEmpty).steps = [] ∧
    (run (prepare [] 0 cfgDocker).config stEmpty).error = none := by
  decide

/-- C4 (amended): for every config whose communicator type is neither `ssh`
nor `winrm`, `Run` selects the empty step sequence and still starts the
Runner with it; the empty runner leaves the state bag without `error` and
`image_id`, so such a build finishes with nil artifact and nil error instead
of a configuration failure. -/
theorem C4_amended_runner_still_started (c : Config) (st : RunState)
    (h1 : c.comm.type ≠ "winrm") (h2 : c.comm.type ≠ "ssh") :
    buildSteps c = [] ∧ (run c st).runnerStarted = true ∧
    (run c { error := none, imageId := none }).artifact = none ∧
    (run c { error := none, imageId := none }).error = none := by
  refine ⟨?_, ?_, ?_, ?_⟩
  · simp [buildSteps, h1, h2]
  · cases h : st.error <;> cases h' : st.imageId <;> simp [run, h, h']
  · simp [run]
  · simp [run]

/-- Witness for the amended C4. -/
theorem C4_amended_runner_still_started_witness :
    buildSteps cfgDocker = [] ∧ (run cfgDocker stErr).runnerStarted = true ∧
    (run cfgDocker { error := none, imageId := none }).artifact = none ∧
    (run cfgDocker { error := none, imageId := none }).error = none :=
  C4_amended_runner_still_started cfgDocker stErr (by decide) (by decide)

/-- C5: for every run whose shared state contains an `error` key after the
runner finishes, `Run` returns exactly that error together with a nil
artifact. -/
theorem C5_error_means_no_artifact (c : Config) (st : RunState) (e : String)
    (h : st.error = some e) :
    (run c st).artifact = none ∧ (run c st).error = some e := by
  simp [run, h]

/-- Witness for C5. -/
theorem C5_error_means_no_artifact_witness :
    stErr.error = some "instance creation failed" ∧
    ((run cfgBase stErr).artifact = none ∧
     (run cfgBase stErr).error = some "instance creation failed") :=
  ⟨rfl, C5_error_means_no_artifact cfgBase stErr "instance creation failed" rfl⟩

/-- C3: `Prepare` accepts the instance sizing only when exactly one of {a
named `instance_flavor`, an explicit cpu/memory/disk sizing} is specified:
with both forms or with neither, a validation error is reported; with exactly
one form the sizing check passes. -/
theorem C3_sizing_exactly_one (commErrs : List String) (now : Int) (c : Config) :
    ((c.instanceFlavor ≠ "" ∧
        (0 < c.instanceCpu ∨ 0 < c.instanceMemory ∨ 0 < c.instanceDiskCapacity)) →
      sizingBothMsg ∈ (prepare commErrs now c).errs ∧
      (prepare commErrs now c).retErr ≠ none) ∧
    ((c.instanceFlavor = "" ∧ c.instanceCpu ≤ 0 ∧ c.instanceMemory ≤ 0 ∧
        c.instanceDiskCapacity ≤ 0) →
      sizingNeitherMsg ∈ (prepare commErrs now c).errs ∧
      (prepare commErrs now c).retErr ≠ none) ∧
    ((c.instanceFlavor ≠ "" ∧ c.instanceCpu ≤ 0 ∧ c.instanceMemory ≤ 0 ∧
        c.instanceDiskCapacity ≤ 0) →
      sizingErrs c = []) ∧
    ((c.instanceFlavor = "" ∧
        (0 < c.instanceCpu ∨ 0 < c.instanceMemory ∨ 0 < c.instanceDiskCapacity)) →
      sizingErrs c = []) := by
  refine ⟨?_, ?_, ?_, ?_⟩
  · rintro ⟨hf, hpos⟩
    have hb : byFlavor c = false := (byFlavor_false_iff c).mpr hpos
    have hm : sizingBothMsg ∈ (prepare commErrs now c).errs := by
      rw [prepare_errs_def]
      simp [List.mem_append, sizingErrs, hb, bne_iff_ne, hf]
    refine ⟨hm, ?_⟩
    rw [prepare_retErr_of_mem commErrs now c _ hm]
    simp
  · rintro ⟨hf, hC, hM, hD⟩
    have hb : byFlavor c = true := (byFlavor_true_iff c).mpr ⟨hC, hM, hD⟩
    have hm : sizingNeitherMsg ∈ (prepare commErrs now c).errs := by
      rw [prepare_errs_def]
      simp [List.mem_append, sizingErrs, hb, hf]
    refine ⟨hm, ?_⟩
    rw [prepare_retErr_of_mem commErrs now c _ hm]
    simp
  · rintro ⟨hf, hC, hM, hD⟩
    have hb : byFlavor c = true := (byFlavor_true_iff c).mpr ⟨hC, hM, hD⟩
    simp [sizingErrs, hb, bne_iff_ne, hf]
  · rintro ⟨hf, hpos⟩
    have hb : byFlavor c = false := (byFlavor_false_iff c).mpr hpos
    simp [sizingErrs, hb, hf]

/-- Witness for C3 at one configuration per case. -/
theorem C3_sizing_exactly_one_witness :
    (sizingBothMsg ∈ (prepare [] 0 cfgSizingBoth).errs ∧
      (prepare [] 0 cfgSizingBoth).retErr ≠ none) ∧
    (sizingNeitherMsg ∈ (prepare [] 0 cfgSizingNeither).errs ∧
      (prepare [] 0 cfgSizingNeither).retErr ≠ none) ∧
    sizingErrs cfgBase = [] ∧
    sizingErrs cfgSizingExplicit = [] :=
  ⟨(C3_sizing_exactly_one [] 0 cfgSizingBoth).1 ⟨by decide, by decide⟩,
   (C3_sizing_exactly_one [] 0 cfgSizingNeither).2.1 ⟨by decide, by decide, by decide, by decide⟩,
   (C3_sizing_exactly_one [] 0 cfgBase).2.2.1 ⟨by decide, by decide, by decide, by decide⟩,
   (C3_sizing_exactly_one [] 0 cfgSizingExplicit).2.2.2 ⟨by decide, by decide⟩⟩

/-- C6 counterexample: `"0s"` (and `"-5m"`) parse successfully, so `Prepare`
accepts the config without any error, yet the resulting `StateTimeout` is `0`
(resp. negative) — not strictly positive, contradicting "for every config
Prepare accepts, the resulting StateTimeout is strictly positive". -/
theorem C6_counterexample :
    (prepare [] 0 cfgZeroTimeout).retErr = none ∧
    (prepare [] 0 cfgZeroTimeout).config.stateTimeout = 0 ∧
    (prepare [] 0 cfgNegTimeout).retErr = none ∧
    (prepare [] 0 cfgNegTimeout).config.stateTimeout = -300000000000 := by
  decide

/-- C6 (amended): `Prepare` reports a timeout validation error exactly when
the (defaulted) `instance_state_timeout` string fails to parse as a Go
duration, and for accepted strings it stores the parsed value as
`StateTimeout` — which may be zero or negative, since positivity is not
checked. -/
theorem C6_amended_timeout_parse_only (commErrs : List String) (now : Int) (c : Config) :
    ((timeoutResult (applyDefaults now c).rawStateTimeout).2 = [] ↔
      (parseDuration (applyDefaults now c).rawStateTimeout).isOk = true) ∧
    (∀ e, parseDuration (applyDefaults now c).rawStateTimeout = .error e →
      ("Failed parsing state_timeout: " ++ e) ∈ (prepare commErrs now c).errs ∧
      (prepare commErrs now c).retErr ≠ none) ∧
    (∀ d, parseDuration (applyDefaults now c).rawStateTimeout = .ok d →
      (prepare commErrs now c).config.stateTimeout = d ∧
      (timeoutResult (applyDefaults now c).rawStateTimeout).2 = []) := by
  refine ⟨?_, ?_, ?_⟩
  · cases h : parseDuration (applyDefaults now c).rawStateTimeout <;>
      simp [timeoutResult, h, Except.isOk, Except.toBool]
  · intro e he
    have hm : ("Failed parsing state_timeout: " ++ e) ∈ (prepare commErrs now c).errs := by
      rw [prepare_errs_def]
      simp [List.mem_append, timeoutResult, he]
    refine ⟨hm, ?_⟩
    rw [prepare_retErr_of_mem commErrs now c _ hm]
    simp
  · intro d hd
    rw [prepare_stateTimeout_def]
    simp [timeoutResult, hd]

/-- Witness for the amended C6: an unparseable timeout is reported, a parsed
one is stored. -/
theorem C6_amended_timeout_parse_only_witness :
    parseDuration (applyDefaults 0 cfgBadTimeout).rawStateTimeout =
      .error "time: invalid duration \"bogus\"" ∧
    (("Failed parsing state_timeout: time: invalid duration \"bogus\"") ∈
        (prepare [] 0 cfgBadTimeout).errs ∧
      (prepare [] 0 cfgBadTimeout).retErr ≠ none) ∧
    parseDuration (applyDefaults 0 cfgBase).rawStateTimeout = .ok 600000000000 ∧
    ((prepare [] 0 cfgBase).config.stateTimeout = 600000000000 ∧
      (timeoutResult (applyDefaults 0 cfgBase).rawStateTimeout).2 = []) :=
  ⟨by rfl,
   (C6_amended_timeout_parse_only [] 0 cfgBadTimeout).2.1
     "time: invalid duration \"bogus\"" (by rfl),
   by rfl,
   (C6_amended_timeout_parse_only [] 0 cfgBase).2.2 600000000000 (by rfl)⟩

/-- C7: `Prepare` enforces the base-image selector mutual exclusivity: both
`base_image_id` and `base_os_code` set, or neither set, is a validation
error; the selector check passes exactly when exactly one is set. -/
theorem C7_base_image_exactly_one (commErrs : List String) (now : Int) (c : Config) :
    ((c.baseImageId ≠ "" ∧ c.baseOsCode ≠ "") →
      baseBothMsg ∈ (prepare commErrs now c).errs ∧
      (prepare commErrs now c).retErr ≠ none) ∧
    ((c.baseImageId = "" ∧ c.baseOsCode = "") →
      baseNeitherMsg ∈ (prepare commErrs now c).errs ∧
      (prepare commErrs now c).retErr ≠ none) ∧
    (baseImageErrs c = [] ↔ ((c.baseImageId = "") ↔ (c.baseOsCode ≠ ""))) := by
  refine ⟨?_, ?_, ?_⟩
  · rintro ⟨h1, h2⟩
    have hm : baseBothMsg ∈ (prepare commErrs now c).errs := by
      rw [prepare_errs_def]
      simp [List.mem_append, baseImageErrs, bne_iff_ne, beq_iff_eq, h1, h2]
    refine ⟨hm, ?_⟩
    rw [prepare_retErr_of_mem commErrs now c _ hm]
    simp
  · rintro ⟨h1, h2⟩
    have hm : baseNeitherMsg ∈ (prepare commErrs now c).errs := by
      rw [prepare_errs_def]
      simp [List.mem_append, baseImageErrs, beq_iff_eq, h1, h2]
    refine ⟨hm, ?_⟩
    rw [prepare_retErr_of_mem commErrs now c _ hm]
    simp
  · constructor
    · intro h
      by_cases h1 : c.baseImageId = "" <;> by_cases h2 : c.baseOsCode = "" <;>
        simp [baseImageErrs, beq_iff_eq, bne_iff_ne, h1, h2] at h ⊢
    · intro h
      by_cases h1 : c.baseImageId = "" <;> by_cases h2 : c.baseOsCode = "" <;>
        simp [h1, h2] at h <;>
        simp [baseImageErrs, beq_iff_eq, bne_iff_ne, h1, h2, h]

/-- Witness for C7 at one configuration per case. -/
theorem C7_base_image_exactly_one_witness :
    (baseBothMsg ∈ (prepare [] 0 cfgBaseImageBoth).errs ∧
      (prepare [] 0 cfgBaseImageBoth).retErr ≠ none) ∧
    (baseNeitherMsg ∈ (prepare [] 0 cfgBaseImageNeither).errs ∧
      (prepare [] 0 cfgBaseImageNeither).retErr ≠ none) ∧
    (baseImageErrs cfgBase = [] ↔ ((cfgBase.baseImageId = "") ↔ (cfgBase.baseOsCode ≠ ""))) :=
  ⟨(C7_base_image_exactly_one [] 0 cfgBaseImageBoth).1 ⟨by decide, by decide⟩,
   (C7_base_image_exactly_one [] 0 cfgBaseImageNeither).2.1 ⟨by decide, by decide⟩,
   (C7_base_image_exactly_one [] 0 cfgBase).2.2⟩

/-- C8: a configuration violating several validation rules at once (missing
api_key, missing username, missing image_name, and the sizing
mutual-exclusivity rule with neither form set) yields one returned error
aggregating the messages of every violated rule. -/
theorem C8_aggregates_all_messages (commErrs : List String) (now : Int) (c : Config)
    (hA : c.apiKey = "") (hU : c.username = "") (hI : c.imageName = "")
    (hF : c.instanceFlavor = "") (hC : c.instanceCpu ≤ 0) (hM : c.instanceMemory ≤ 0)
    (hD : c.instanceDiskCapacity ≤ 0) :
    (prepare commErrs now c).retErr = some ((prepare commErrs now c).errs) ∧
    sizingNeitherMsg ∈ (prepare commErrs now c).errs ∧
    apiKeyMsg ∈ (prepare commErrs now c).errs ∧
    usernameMsg ∈ (prepare commErrs now c).errs ∧
    imageNameMsg ∈ (prepare commErrs now c).errs := by
  have hb : byFlavor c = true := (byFlavor_true_iff c).mpr ⟨hC, hM, hD⟩
  have h1 : sizingNeitherMsg ∈ (prepare commErrs now c).errs := by
    rw [prepare_errs_def]
    simp [List.mem_append, sizingErrs, hb, hF]
  have h2 : apiKeyMsg ∈ (prepare commErrs now c).errs := by
    rw [prepare_errs_def]
    simp [List.mem_append, apiKeyErrs, hA]
  have h3 : usernameMsg ∈ (prepare commErrs now c).errs := by
    rw [prepare_errs_def]
    simp [List.mem_append, usernameErrs, hU]
  have h4 : imageNameMsg ∈ (prepare commErrs now c).errs := by
    rw [prepare_errs_def]
    simp [List.mem_append, imageNameErrs, hI]
  exact ⟨prepare_retErr_of_mem commErrs now c _ h2, h1, h2, h3, h4⟩

/-- Witness for C8 at a configuration violating all four rules at once. -/
theorem C8_aggregates_all_messages_witness :
    (prepare [] 0 cfgMultiViolation).retErr = some ((prepare [] 0 cfgMultiViolation).errs) ∧
    sizingNeitherMsg ∈ (prepare [] 0 cfgMultiViolation).errs ∧
    apiKeyMsg ∈ (prepare [] 0 cfgMultiViolation).errs ∧
    usernameMsg ∈ (prepare [] 0 cfgMultiViolation).errs ∧
    imageNameMsg ∈ (prepare [] 0 cfgMultiViolation).errs :=
  C8_aggregates_all_messages [] 0 cfgMultiViolation (by decide) (by decide) (by decide)
    (by decide) (by decide) (by decide) (by decide)

/-- C10: non-positive explicit sizing values count as unset: with
`instance_flavor` set and `instance_cpu`, `instance_memory`,
`instance_disk_capacity` all zero or negative, `byFlavor` stays `true` and
the sizing mutual-exclusivity check passes without error. -/
theorem C10_nonpositive_sizing_is_unset (c : Config)
    (hf : c.instanceFlavor ≠ "") (hC : c.instanceCpu ≤ 0) (hM : c.instanceMemory ≤ 0)
    (hD : c.instanceDiskCapacity ≤ 0) :
    byFlavor c = true ∧ sizingErrs c = [] := by
  have hb : byFlavor c = true := (byFlavor_true_iff c).mpr ⟨hC, hM, hD⟩
  exact ⟨hb, by simp [sizingErrs, hb, bne_iff_ne, hf]⟩

/-- Witness for C10 with strictly negative sizing values. -/
theorem C10_nonpositive_sizing_is_unset_witness :
    byFlavor cfgNegSizing = true ∧ sizingErrs cfgNegSizing = [] :=
  C10_nonpositive_sizing_is_unset cfgNegSizing (by decide) (by decide) (by decide) (by decide)

/-- C9: for every run that finishes with no `error` key and an `image_id`
key, `Run` returns a nil error and an artifact whose image name is the
config's `ImageName`, whose datacenter name is the config's `DatacenterName`,
and whose image id is the state's `image_id` value. -/
theorem C9_success_artifact (c : Config) (st : RunState) (iid : String)
    (he : st.error = none) (hi : st.imageId = some iid) :
    (run c st).error = none ∧
    (run c st).artifact =
      some { imageName := c.imageName, imageId := iid,
             datacenterName := c.datacenterName,
             client := { username := c.username, apiKey := c.apiKey } } := by
  simp [run, he, hi]

/-- Witness for C9. -/
theorem C9_success_artifact_witness :
    stOk.error = none ∧ stOk.imageId = some "4815162342" ∧
    ((run cfgBase stOk).error = none ∧
     (run cfgBase stOk).artifact =
       some { imageName := cfgBase.imageName, imageId := "4815162342",
              datacenterName := cfgBase.datacenterName,
              client := { username := cfgBase.username, apiKey := cfgBase.apiKey } }) :=
  ⟨rfl, rfl, C9_success_artifact cfgBase stOk "4815162342" rfl rfl⟩

end IbmCloud
